import Mathlib

/-!
# A shallow embedding of `streamlit/type_util.py`

This file embeds the type-sniffing predicates of `lib/streamlit/type_util.py`
into Lean and proves the specified properties about them.

Modelling choices:

* A Python object is a `PyObj`: a runtime type id (`Nat`) together with the
  structural contents the module inspects — sequence elements for list/tuple
  objects and string-keyed entries for dict objects.  All other objects are
  `PyObj.atom`.  The claims only require string dict keys, which matches every
  key the source code compares against.
* A `Env` maps type ids to the type metadata the source reads:
  `__module__`, `__name__`, `__bases__`, the method-resolution order used by
  `isinstance`, and the optional `_fields` attribute, plus the state of the
  optional `sympy` dependency (whether `import sympy` succeeds, the id of
  `sympy.Expr`, and whether the precise check raises for a given object).
* `type(obj) is list`, `type(obj) not in dict_types` and `b[0] != tuple`
  compare type identity, modelled as equality of type ids; the builtin
  `list`, `dict` and `tuple` types get fixed ids.
* The two compiled regexes are modelled by executable matchers that follow
  Python `re` semantics on the relevant patterns (ASCII classes for
  `\d`/`\w`; a non-MULTILINE `$` matches at the end of the string or just
  before a trailing newline).
* `is_sympy_expession` can return Python `None` (the function body can fall
  through without a `return`), so its model returns `Option Bool`: `some b`
  for a returned boolean, `none` for Python `None`.
-/

/-- A Python runtime value, as far as `type_util.py` inspects it: its runtime
type id plus the contents the module iterates over. -/
inductive PyObj where
  | atom (ty : Nat)
  | seq (ty : Nat) (elems : List PyObj)
  | dict (ty : Nat) (entries : List (String × PyObj))

/-- `type(obj)`, as a type id. -/
def PyObj.ty : PyObj → Nat
  | .atom t => t
  | .seq t _ => t
  | .dict t _ => t

/-- The elements obtained by iterating the object (empty for non-sequences;
the source only iterates objects whose type it has already checked). -/
def PyObj.elemsD : PyObj → List PyObj
  | .seq _ es => es
  | _ => []

/-- The key/value entries of a dict object (empty for non-dicts; the source
only calls `.keys()`/`.values()` on objects whose type is in `dict_types`). -/
def PyObj.entriesD : PyObj → List (String × PyObj)
  | .dict _ kvs => kvs
  | _ => []

/-- `obj.keys()`. -/
def PyObj.keysD (o : PyObj) : List String := o.entriesD.map Prod.fst

/-- `obj.values()`. -/
def PyObj.valuesD (o : PyObj) : List PyObj := o.entriesD.map Prod.snd

/-- Fixed type id of the builtin `list` type. -/
def listTypeId : Nat := 0

/-- Fixed type id of the builtin `dict` type. -/
def dictTypeId : Nat := 1

/-- Fixed type id of the builtin `tuple` type. -/
def tupleTypeId : Nat := 2

/-- The ambient runtime: per-type reflection metadata and the state of the
optional `sympy` dependency. -/
structure Env where
  /-- `t.__module__` for the type with the given id. -/
  module : Nat → String
  /-- `t.__name__` for the type with the given id. -/
  name : Nat → String
  /-- `t.__bases__` for the type with the given id. -/
  bases : Nat → List Nat
  /-- The (strict) superclasses consulted by `isinstance`, i.e. the tail of
  the method-resolution order maintained by the runtime. -/
  mro : Nat → List Nat
  /-- `getattr(t, "_fields", None)`: the optional `_fields` attribute. -/
  fieldsAttr : Nat → Option PyObj
  /-- The id of `type(lambda: 0)`, bound to `_FUNCTION_TYPE` at import. -/
  functionTypeId : Nat
  /-- Whether `import sympy` succeeds in this process. -/
  sympyAvailable : Bool
  /-- The id of the type `sympy.Expr` (meaningful when the import succeeds). -/
  sympyExprId : Nat
  /-- Whether the precise `isinstance(obj, sympy.Expr)` check raises for the
  given object (the source guards it with a bare `except:`). -/
  sympyCheckRaises : PyObj → Bool

/-- `"%s.%s" % (the_type.__module__, the_type.__name__)` for a type id. -/
def typeFqn (env : Env) (t : Nat) : String := env.module t ++ "." ++ env.name t

/-- The fully qualified name of `type(obj)`. -/
def pyFqn (env : Env) (obj : PyObj) : String := typeFqn env obj.ty

/-- `isinstance(o, t)`: the object's own type, or any entry of its MRO. -/
def pyIsinstance (env : Env) (o : PyObj) (t : Nat) : Bool :=
  o.ty == t || (env.mro o.ty).contains t

/-- Python `str.startswith`, computed on the character list so that the
kernel can evaluate it on concrete inputs. -/
def strStartsWith (s p : String) : Bool := p.data.isPrefixOf s.data

/-- Python `str.endswith`, computed on the character list. -/
def strEndsWith (s p : String) : Bool := p.data.isSuffixOf s.data

/-- Drop the first `n` characters of a string. -/
def strDrop (s : String) (n : Nat) : String := ⟨s.data.drop n⟩

/-- Drop the last `n` characters of a string. -/
def strDropRight (s : String) (n : Nat) : String :=
  ⟨s.data.take (s.data.length - n)⟩

/-- Whether a string contains a given character. -/
def strContains (s : String) (c : Char) : Bool := s.data.contains c

/-- Python `re` semantics of a trailing `$` (non-MULTILINE) after `.*`:
the remaining text must contain no newline, except possibly a single
newline as its final character. -/
def reDollarTail (r : String) : Bool :=
  !(strContains r '\n')
  || (strEndsWith r "\n" && !(strContains (strDropRight r 1) '\n'))

/-- Matcher for the compiled regex `^sympy.*$` (as used via `re.match`). -/
def sympyReMatch (s : String) : Bool :=
  strStartsWith s "sympy" && reDollarTail (strDrop s 5)

/-- An ASCII `\w` character (the FQNs at issue are ASCII). -/
def isWordChar (c : Char) : Bool := c.isAlphanum || c == '_'

/-- Matcher for the compiled regex `^altair\.vegalite\.v\d+\.api\.\w*Chart$`
(as used via `re.match`; `\d`/`\w` restricted to ASCII). -/
def altairReMatch (s : String) : Bool :=
  if !(strStartsWith s "altair.vegalite.v") then false
  else
    let r := strDrop s 17
    let ds := r.data.takeWhile Char.isDigit
    if ds.length == 0 then false
    else
      let r2 := strDrop r ds.length
      if !(strStartsWith r2 ".api.") then false
      else
        let r3 := strDrop r2 5
        strEndsWith r3 "Chart" && (strDropRight r3 5).data.all isWordChar

/-- The `fqn_type_pattern` argument of `is_type`: either a string or a
compiled regex, modelled by its matcher.  (The `isinstance(fqn_type_pattern,
string_types)` test of the source — `string_types` comes from the
`streamlit.compatibility` shims, which are not among the sources — is
modelled by matching on this sum.) -/
inductive FqnPattern where
  | lit (s : String)
  | re (matcher : String → Bool)

/-- `is_type(obj, fqn_type_pattern)`: check type without importing expensive
modules.  A string pattern is compared for exact equality with the FQN; a
regex pattern is matched against it. -/
def is_type (env : Env) (obj : PyObj) (fqn_type_pattern : FqnPattern) : Bool :=
  match fqn_type_pattern with
  | .lit s => s == pyFqn env obj
  | .re m => m (pyFqn env obj)

/-- `_SYMPY_RE = re.compile(r"^sympy.*$")`. -/
def _SYMPY_RE : FqnPattern := .re sympyReMatch

/-- `_ALTAIR_RE = re.compile(r"^altair\.vegalite\.v\d+\.api\.\w*Chart$")`. -/
def _ALTAIR_RE : FqnPattern := .re altairReMatch

/-- `is_sympy_expession(obj)` (sic).  Returns `some b` when the Python
function returns the boolean `b`, and `none` when it falls through the end
of its body and returns Python `None` (which happens when `sympy` imports
fine and `isinstance(obj, sympy.Expr)` is `False`). -/
def is_sympy_expession (env : Env) (obj : PyObj) : Option Bool :=
  if !(is_type env obj _SYMPY_RE) then some false
  else if !env.sympyAvailable then some false
  else if env.sympyCheckRaises obj then some false
  else if pyIsinstance env obj env.sympyExprId then some true
  else none

/-- `is_altair_chart(obj)`. -/
def is_altair_chart (env : Env) (obj : PyObj) : Bool :=
  is_type env obj _ALTAIR_RE

/-- `is_keras_model(obj)`. -/
def is_keras_model (env : Env) (obj : PyObj) : Bool :=
  is_type env obj (.lit "keras.engine.sequential.Sequential")
  || is_type env obj (.lit "keras.engine.training.Model")
  || is_type env obj (.lit "tensorflow.python.keras.engine.sequential.Sequential")
  || is_type env obj (.lit "tensorflow.python.keras.engine.training.Model")

/-- `is_graphviz_chart(obj)`. -/
def is_graphviz_chart (env : Env) (obj : PyObj) : Bool :=
  is_type env obj (.lit "graphviz.dot.Graph")
  || is_type env obj (.lit "graphviz.dot.Digraph")

/-- `_is_plotly_obj(obj)`: the object's type lives in a module whose name
starts with `plotly.graph_objs`. -/
def _is_plotly_obj (env : Env) (obj : PyObj) : Bool :=
  strStartsWith (env.module obj.ty) "plotly.graph_objs"

/-- `_is_list_of_plotly_objs(obj)`: the object's type is exactly the builtin
`list`, it is non-empty, and every element is a plotly object. -/
def _is_list_of_plotly_objs (env : Env) (obj : PyObj) : Bool :=
  if !(obj.ty == listTypeId) then false
  else if obj.elemsD.length == 0 then false
  else obj.elemsD.all (fun item => _is_plotly_obj env item)

/-- Modelled from the spec: `dict_types` is bound by `setup_2_3_shims` from
`streamlit.compatibility`, which is not among the sources.  The spec
describes the inputs of clause (c) as mappings, so the model takes the
builtin dict type as the mapping type. -/
def dict_types : List Nat := [dictTypeId]

/-- `_is_probably_plotly_dict(obj)`. -/
def _is_probably_plotly_dict (env : Env) (obj : PyObj) : Bool :=
  if !(dict_types.contains obj.ty) then false
  else if obj.keysD.length == 0 then false
  else if obj.keysD.any (fun k => !(["config", "data", "frames", "layout"].contains k)) then
    false
  else if obj.valuesD.any (fun v => _is_plotly_obj env v) then true
  else if obj.valuesD.any (fun v => _is_list_of_plotly_objs env v) then true
  else false

/-- `is_plotly_chart(obj)`. -/
def is_plotly_chart (env : Env) (obj : PyObj) : Bool :=
  is_type env obj (.lit "plotly.graph_objs._figure.Figure")
  || _is_list_of_plotly_objs env obj
  || _is_probably_plotly_dict env obj

/-- `is_function(x)`: `type(x) == _FUNCTION_TYPE`. -/
def is_function (env : Env) (x : PyObj) : Bool :=
  x.ty == env.functionTypeId

/-- `is_namedtuple(x)`. -/
def is_namedtuple (env : Env) (x : PyObj) : Bool :=
  match env.bases x.ty with
  | [b0] =>
    if b0 != tupleTypeId then false
    else
      match env.fieldsAttr x.ty with
      | none => false
      | some f =>
        if !(pyIsinstance env f tupleTypeId) then false
        else f.elemsD.all (fun n => env.name n.ty == "str")
  | _ => false

/-!
## Module-state threading

To reason about side effects on the import cache (`sys.modules`), each
predicate also gets a state-threading version.  The boolean state records
whether the `sympy` module is present in the import cache; it is the only
module state any of these predicates can touch.  Only
`is_sympy_expession` executes an `import` statement: a successful
`import sympy` loads the module into the cache, a failed import leaves the
cache unchanged.  Every other predicate reads only reflection metadata.
-/

/-- State-threading version of `is_sympy_expession`. -/
def is_sympy_expession_st (env : Env) (obj : PyObj) (sympyLoaded : Bool) :
    Option Bool × Bool :=
  if !(is_type env obj _SYMPY_RE) then (some false, sympyLoaded)
  else if !env.sympyAvailable then (some false, sympyLoaded)
  else if env.sympyCheckRaises obj then (some false, true)
  else if pyIsinstance env obj env.sympyExprId then (some true, true)
  else (none, true)

/-- State-threading version of `is_type`: no module is imported. -/
def is_type_st (env : Env) (obj : PyObj) (p : FqnPattern) (sympyLoaded : Bool) :
    Bool × Bool :=
  (is_type env obj p, sympyLoaded)

/-- State-threading version of `is_altair_chart`: no module is imported. -/
def is_altair_chart_st (env : Env) (obj : PyObj) (sympyLoaded : Bool) :
    Bool × Bool :=
  (is_altair_chart env obj, sympyLoaded)

/-- State-threading version of `is_keras_model`: no module is imported. -/
def is_keras_model_st (env : Env) (obj : PyObj) (sympyLoaded : Bool) :
    Bool × Bool :=
  (is_keras_model env obj, sympyLoaded)

/-- State-threading version of `is_plotly_chart`: no module is imported. -/
def is_plotly_chart_st (env : Env) (obj : PyObj) (sympyLoaded : Bool) :
    Bool × Bool :=
  (is_plotly_chart env obj, sympyLoaded)

/-- State-threading version of `is_graphviz_chart`: no module is imported. -/
def is_graphviz_chart_st (env : Env) (obj : PyObj) (sympyLoaded : Bool) :
    Bool × Bool :=
  (is_graphviz_chart env obj, sympyLoaded)

/-- State-threading version of `is_function`: no module is imported. -/
def is_function_st (env : Env) (obj : PyObj) (sympyLoaded : Bool) :
    Bool × Bool :=
  (is_function env obj, sympyLoaded)

/-- State-threading version of `is_namedtuple`: no module is imported. -/
def is_namedtuple_st (env : Env) (obj : PyObj) (sympyLoaded : Bool) :
    Bool × Bool :=
  (is_namedtuple env obj, sympyLoaded)

/-!
## A concrete sample runtime

A small concrete environment used to evaluate the predicates on concrete
inputs.  Type ids: 0/1/2 are the builtins `list`/`dict`/`tuple`, 9 is the
function type, 10 is `plotly.graph_objs._scatter.Scatter`, 20 is
`sympy.printing.printer.Printer` (a sympy class that is not an `Expr`
subclass), 30 is a generated namedtuple class `Point` whose single field
name is an instance of the non-builtin type 31, named `str`, and 50 is
`sympy.Expr`.
-/

/-- A concrete sample environment (sympy importable). -/
def sampleEnv : Env where
  module := fun t =>
    if t == 10 then "plotly.graph_objs._scatter"
    else if t == 20 then "sympy.printing.printer"
    else if t == 30 then "tests.point"
    else if t == 31 then "exotic.text"
    else if t == 50 then "sympy.core.expr"
    else "builtins"
  name := fun t =>
    if t == 0 then "list"
    else if t == 1 then "dict"
    else if t == 2 then "tuple"
    else if t == 9 then "function"
    else if t == 10 then "Scatter"
    else if t == 20 then "Printer"
    else if t == 30 then "Point"
    else if t == 31 then "str"
    else if t == 50 then "Expr"
    else "object"
  bases := fun t => if t == 30 then [tupleTypeId] else []
  mro := fun t => if t == 30 then [tupleTypeId] else []
  fieldsAttr := fun t =>
    if t == 30 then some (.seq tupleTypeId [.atom 31]) else none
  functionTypeId := 9
  sympyAvailable := true
  sympyExprId := 50
  sympyCheckRaises := fun _ => false

/-- The sample environment in a process where `import sympy` fails. -/
def envNoSympy : Env := { sampleEnv with sympyAvailable := false }

/-!
## Helper lemmas
-/

/-- A boolean is `true` or `false`: the Bool-valued predicates are total. -/
theorem bool_total (b : Bool) : b = true ∨ b = false := by
  cases b
  · exact Or.inr rfl
  · exact Or.inl rfl

/-- The exact-FQN check against the plotly `Figure` type fails whenever the
object's FQN differs from it. -/
theorem figure_check_false (env : Env) (obj : PyObj)
    (h : pyFqn env obj ≠ "plotly.graph_objs._figure.Figure") :
    is_type env obj (.lit "plotly.graph_objs._figure.Figure") = false := by
  simp only [is_type, beq_eq_false_iff_ne]
  exact Ne.symm h

/-- The list branch rejects any object whose type is not exactly `list`. -/
theorem list_branch_not_list (env : Env) (ty : Nat) (elems : List PyObj)
    (h : ty ≠ listTypeId) :
    _is_list_of_plotly_objs env (PyObj.seq ty elems) = false := by
  have hb : (ty == listTypeId) = false := beq_eq_false_iff_ne.mpr h
  simp [_is_list_of_plotly_objs, PyObj.ty, hb]

/-- The list branch rejects any object with no elements to iterate. -/
theorem list_branch_no_elems (env : Env) (obj : PyObj)
    (h : obj.elemsD = []) :
    _is_list_of_plotly_objs env obj = false := by
  unfold _is_list_of_plotly_objs
  rw [h]
  split <;> simp

/-- The dict branch rejects any object with no entries. -/
theorem dict_branch_no_entries (env : Env) (obj : PyObj)
    (h : obj.entriesD = []) :
    _is_probably_plotly_dict env obj = false := by
  unfold _is_probably_plotly_dict
  simp [PyObj.keysD, h]

/-- The dict branch rejects any object one of whose keys is outside the
allowed set. -/
theorem dict_branch_disallowed_key (env : Env) (obj : PyObj)
    (h : obj.keysD.any
        (fun k => !(["config", "data", "frames", "layout"].contains k)) = true) :
    _is_probably_plotly_dict env obj = false := by
  unfold _is_probably_plotly_dict
  rw [h]
  simp

/-!
## The claims
-/

/-- Claim C1: the claim states that whenever the sympy prefilter passes and
the precise check completes, `is_sympy_expession` returns a boolean — in
particular `False` when sympy loads fine but the object is not an `Expr`.
The code instead falls through the end of the function body: evaluated at an
object of type `sympy.printing.printer.Printer` (its FQN passes the
prefilter) in an environment where `import sympy` succeeds and
`isinstance(obj, sympy.Expr)` is `False` without raising, the function
returns Python `None` (modelled as `none`), not `False`. -/
theorem c1_sympy_nonexpr_returns_none :
    is_sympy_expession sampleEnv (PyObj.atom 20) = none := by decide

/-- Claim C2: in this embedding every predicate is a total function — each
boolean predicate returns `true` or `false` on every object — and the
failure paths of the optional dependency are converted to `false`: whenever
`import sympy` fails, or the precise instance check raises, the sympy
predicate returns `False`. -/
theorem c2_predicates_total (env : Env) (obj : PyObj) :
    (env.sympyAvailable = false ∨ env.sympyCheckRaises obj = true →
      is_sympy_expession env obj = some false)
    ∧ (is_altair_chart env obj = true ∨ is_altair_chart env obj = false)
    ∧ (is_keras_model env obj = true ∨ is_keras_model env obj = false)
    ∧ (is_plotly_chart env obj = true ∨ is_plotly_chart env obj = false)
    ∧ (is_graphviz_chart env obj = true ∨ is_graphviz_chart env obj = false)
    ∧ (is_function env obj = true ∨ is_function env obj = false)
    ∧ (is_namedtuple env obj = true ∨ is_namedtuple env obj = false) := by
  refine ⟨?_, bool_total _, bool_total _, bool_total _, bool_total _,
    bool_total _, bool_total _⟩
  intro h
  cases hA : is_type env obj _SYMPY_RE with
  | false => simp [is_sympy_expession, hA]
  | true =>
    rcases h with h | h
    · simp [is_sympy_expession, hA, h]
    · cases hB : env.sympyAvailable with
      | false => simp [is_sympy_expession, hA, hB]
      | true => simp [is_sympy_expession, hA, hB, h]

/-- Witness for C2: in a process where `import sympy` fails, the sympy
predicate applied to an object of a sympy-namespaced type returns `False`. -/
theorem c2_witness :
    is_sympy_expession envNoSympy (PyObj.atom 20) = some false :=
  (c2_predicates_total envNoSympy (PyObj.atom 20)).1 (Or.inl rfl)

/-- Claim C3: for a literal string pattern, `is_type` returns `true` exactly
when the pattern equals (case-sensitively) the FQN built as the type's
module name, a dot, and the type's unqualified name. -/
theorem c3_is_type_literal_iff (env : Env) (obj : PyObj) (p : String) :
    is_type env obj (FqnPattern.lit p) = true
      ↔ p = env.module obj.ty ++ "." ++ env.name obj.ty := by
  simp [is_type, pyFqn, typeFqn]

/-- Claim C4: for every object whose FQN does not start with `"sympy"`, the
sympy predicate returns `False` straight from the regex prefilter, for every
state of the optional dependency; moreover (second conjunct) the call leaves
the import cache untouched — the library-load branch is never reached. -/
theorem c4_prefilter_short_circuit (env : Env) (obj : PyObj)
    (h : strStartsWith (pyFqn env obj) "sympy" = false) :
    is_sympy_expession env obj = some false
    ∧ ∀ st : Bool, is_sympy_expession_st env obj st = (some false, st) := by
  have hm : is_type env obj _SYMPY_RE = false := by
    simp [is_type, _SYMPY_RE, sympyReMatch, h]
  exact ⟨by simp [is_sympy_expession, hm],
    fun st => by simp [is_sympy_expession_st, hm]⟩

/-- Witness for C4: an object of type `builtins.object` is rejected by the
prefilter even though sympy is importable in `sampleEnv`. -/
theorem c4_witness :
    is_sympy_expession sampleEnv (PyObj.atom 5) = some false :=
  (c4_prefilter_short_circuit sampleEnv (PyObj.atom 5) (by decide)).1

/-- Claim C5: provided the object's FQN is not the plotly `Figure` FQN,
`is_plotly_chart` returns `false` on every empty sequence, on every empty
mapping, and on every mapping one of whose keys lies outside
`{"config", "data", "frames", "layout"}` — whatever the other keys hold. -/
theorem c5_plotly_rejections (env : Env) (tyS tyD : Nat)
    (entries : List (String × PyObj))
    (hS : typeFqn env tyS ≠ "plotly.graph_objs._figure.Figure")
    (hD : typeFqn env tyD ≠ "plotly.graph_objs._figure.Figure")
    (hbad : entries.any
        (fun kv => !(["config", "data", "frames", "layout"].contains kv.1)) = true) :
    is_plotly_chart env (PyObj.seq tyS []) = false
    ∧ is_plotly_chart env (PyObj.dict tyD []) = false
    ∧ is_plotly_chart env (PyObj.dict tyD entries) = false := by
  refine ⟨?_, ?_, ?_⟩
  · unfold is_plotly_chart
    rw [figure_check_false env (PyObj.seq tyS []) hS,
      list_branch_no_elems env (PyObj.seq tyS []) rfl,
      dict_branch_no_entries env (PyObj.seq tyS []) rfl]
    rfl
  · unfold is_plotly_chart
    rw [figure_check_false env (PyObj.dict tyD []) hD,
      list_branch_no_elems env (PyObj.dict tyD []) rfl,
      dict_branch_no_entries env (PyObj.dict tyD []) rfl]
    rfl
  · have hk : (PyObj.dict tyD entries).keysD.any
        (fun k => !(["config", "data", "frames", "layout"].contains k)) = true := by
      simpa [PyObj.keysD, PyObj.entriesD, List.any_map, Function.comp] using hbad
    unfold is_plotly_chart
    rw [figure_check_false env (PyObj.dict tyD entries) hD,
      list_branch_no_elems env (PyObj.dict tyD entries) rfl,
      dict_branch_disallowed_key env (PyObj.dict tyD entries) hk]
    rfl

/-- Witness for C5: the spec's own example, a dict
`{"data": [], "unknownKey": 1}` with a disallowed key, is rejected. -/
theorem c5_witness :
    is_plotly_chart sampleEnv
      (PyObj.dict dictTypeId
        [("data", PyObj.seq listTypeId []), ("unknownKey", PyObj.atom 5)])
      = false :=
  (c5_plotly_rejections sampleEnv listTypeId dictTypeId
    [("data", PyObj.seq listTypeId []), ("unknownKey", PyObj.atom 5)]
    (by decide) (by decide) (by decide)).2.2

/-- Claim C6: a non-empty dict whose keys all lie in
`{"config", "data", "frames", "layout"}` and at least one of whose values is
either an object from a `plotly.graph_objs*` module, or a non-empty builtin
list all of whose elements are such objects, is accepted by
`is_plotly_chart`. -/
theorem c6_plotly_dict_accepted (env : Env) (entries : List (String × PyObj))
    (hne : entries ≠ [])
    (hkeys : ∀ kv ∈ entries,
      kv.1 ∈ (["config", "data", "frames", "layout"] : List String))
    (hval : ∃ kv ∈ entries,
      strStartsWith (env.module kv.2.ty) "plotly.graph_objs" = true
      ∨ (kv.2.ty = listTypeId ∧ kv.2.elemsD ≠ []
         ∧ kv.2.elemsD.all
             (fun e => strStartsWith (env.module e.ty) "plotly.graph_objs") = true)) :
    is_plotly_chart env (PyObj.dict dictTypeId entries) = true := by
  suffices hd : _is_probably_plotly_dict env (PyObj.dict dictTypeId entries) = true by
    simp [is_plotly_chart, hd]
  have h1 : (dict_types.contains (PyObj.dict dictTypeId entries).ty) = true := rfl
  have h2 : ((PyObj.dict dictTypeId entries).keysD.length == 0) = false := by
    rw [beq_eq_false_iff_ne]
    simpa [PyObj.keysD, PyObj.entriesD, List.length_eq_zero] using hne
  have h3 : ((PyObj.dict dictTypeId entries).keysD.any
      (fun k => !(["config", "data", "frames", "layout"].contains k))) = false := by
    rw [Bool.eq_false_iff]
    intro hcontra
    rw [List.any_eq_true] at hcontra
    obtain ⟨k, hk, hkbad⟩ := hcontra
    simp only [PyObj.keysD, PyObj.entriesD, List.mem_map] at hk
    obtain ⟨kv, hkv, hfst⟩ := hk
    have hmem := hkeys kv hkv
    rw [hfst] at hmem
    simp at hkbad
    simp [hkbad.1, hkbad.2.1, hkbad.2.2.1, hkbad.2.2.2] at hmem
  obtain ⟨kv, hkv, hcase⟩ := hval
  have hvmem : kv.2 ∈ (PyObj.dict dictTypeId entries).valuesD := by
    simp only [PyObj.valuesD, PyObj.entriesD, List.mem_map]
    exact ⟨kv, hkv, rfl⟩
  rcases hcase with hpl | ⟨hty, hne2, hall⟩
  · have hv : ((PyObj.dict dictTypeId entries).valuesD.any
        (fun v => _is_plotly_obj env v)) = true :=
      List.any_eq_true.mpr ⟨kv.2, hvmem, hpl⟩
    unfold _is_probably_plotly_dict
    rw [h1, h2, h3, hv]
    rfl
  · have hlist : _is_list_of_plotly_objs env kv.2 = true := by
      have hb : (kv.2.ty == listTypeId) = true := beq_iff_eq.mpr hty
      have hlen : (kv.2.elemsD.length == 0) = false := by
        rw [beq_eq_false_iff_ne]
        simpa [List.length_eq_zero] using hne2
      unfold _is_list_of_plotly_objs
      rw [hb, hlen]
      simpa [_is_plotly_obj] using hall
    have hv2 : ((PyObj.dict dictTypeId entries).valuesD.any
        (fun v => _is_list_of_plotly_objs env v)) = true :=
      List.any_eq_true.mpr ⟨kv.2, hvmem, hlist⟩
    unfold _is_probably_plotly_dict
    rw [h1, h2, h3, hv2]
    cases hv1 : ((PyObj.dict dictTypeId entries).valuesD.any
        (fun v => _is_plotly_obj env v)) <;> simp

/-- Witness for C6: `{"config": <plotly-namespaced object>}` is accepted. -/
theorem c6_witness :
    is_plotly_chart sampleEnv
      (PyObj.dict dictTypeId [("config", PyObj.atom 10)]) = true :=
  c6_plotly_dict_accepted sampleEnv [("config", PyObj.atom 10)]
    (List.cons_ne_nil _ _)
    (by decide)
    ⟨("config", PyObj.atom 10), List.mem_singleton.mpr rfl, Or.inl (by decide)⟩

/-- Claim C7: `is_keras_model` accepts exactly the four fixed FQNs — two
historical packaging locations of the Sequential and Model classes — and
nothing else; in particular any subclass with its own FQN is rejected, since
no inheritance information is consulted. -/
theorem c7_keras_exact_fqns (env : Env) (obj : PyObj) :
    is_keras_model env obj = true
      ↔ pyFqn env obj ∈ (["keras.engine.sequential.Sequential",
          "keras.engine.training.Model",
          "tensorflow.python.keras.engine.sequential.Sequential",
          "tensorflow.python.keras.engine.training.Model"] : List String) := by
  simp [is_keras_model, is_type]
  tauto

/-- Counterexample to claim C8 as stated: the claim says no predicate call
mutates any module state, but the first candidate call of
`is_sympy_expession` executes `import sympy`, which loads the module into
the import cache (`sys.modules`).  Concretely: starting from a state where
sympy is not yet loaded (`false`), one call on an object of a
sympy-namespaced type, with sympy importable, leaves the cache with sympy
loaded (`true`). -/
theorem c8_counterexample :
    (is_sympy_expession_st sampleEnv (PyObj.atom 20) false).2 = true := by decide

/-- Claim C8 (amended): every predicate is deterministic and idempotent —
repeating a call on the same object returns the same result and leaves the
module state where the first call left it — and every predicate except
`is_sympy_expession` neither reads nor writes module state (its result is a
pure function of the object, and the import-cache state passes through
unchanged); `is_sympy_expession` alone may load the sympy module into
the cache when the prefilter passes. -/
theorem c8_deterministic (env : Env) (obj : PyObj) (p : FqnPattern) (st : Bool) :
    is_sympy_expession_st env obj (is_sympy_expession_st env obj st).2
      = is_sympy_expession_st env obj st
    ∧ is_type_st env obj p st = (is_type env obj p, st)
    ∧ is_altair_chart_st env obj st = (is_altair_chart env obj, st)
    ∧ is_keras_model_st env obj st = (is_keras_model env obj, st)
    ∧ is_plotly_chart_st env obj st = (is_plotly_chart env obj, st)
    ∧ is_graphviz_chart_st env obj st = (is_graphviz_chart env obj, st)
    ∧ is_function_st env obj st = (is_function env obj, st)
    ∧ is_namedtuple_st env obj st = (is_namedtuple env obj, st) := by
  refine ⟨?_, rfl, rfl, rfl, rfl, rfl, rfl, rfl⟩
  cases hA : is_type env obj _SYMPY_RE <;>
    cases hB : env.sympyAvailable <;>
      cases hC : env.sympyCheckRaises obj <;>
        cases hD : pyIsinstance env obj env.sympyExprId <;>
          simp [is_sympy_expession_st, hA, hB, hC, hD]

/-- Claim C9: the sequence branch of `is_plotly_chart` accepts only objects
whose runtime type is exactly the builtin `list`: any non-empty sequence of
plotly-namespaced elements whose type differs — a tuple, a list subclass, or
any other sequence type — is rejected by `_is_list_of_plotly_objs`, and
(provided its FQN is not the plotly `Figure` FQN) by `is_plotly_chart` as a
whole. -/
theorem c9_list_branch_exact_type (env : Env) (ty : Nat) (elems : List PyObj)
    (_hne : elems ≠ [])
    (_hall : elems.all
      (fun e => strStartsWith (env.module e.ty) "plotly.graph_objs") = true)
    (hty : ty ≠ listTypeId) :
    _is_list_of_plotly_objs env (PyObj.seq ty elems) = false
    ∧ (typeFqn env ty ≠ "plotly.graph_objs._figure.Figure" →
        is_plotly_chart env (PyObj.seq ty elems) = false) := by
  have hl : _is_list_of_plotly_objs env (PyObj.seq ty elems) = false :=
    list_branch_not_list env ty elems hty
  refine ⟨hl, fun hfig => ?_⟩
  unfold is_plotly_chart
  rw [figure_check_false env (PyObj.seq ty elems) hfig, hl,
    dict_branch_no_entries env (PyObj.seq ty elems) rfl]
  rfl

/-- Witness for C9: a non-empty tuple whose sole element is a
plotly-namespaced object is not a plotly chart. -/
theorem c9_witness :
    is_plotly_chart sampleEnv (PyObj.seq tupleTypeId [PyObj.atom 10]) = false :=
  (c9_list_branch_exact_type sampleEnv tupleTypeId [PyObj.atom 10]
    (List.cons_ne_nil _ _) (by decide) (by decide)).2 (by decide)

/-- Claim C10: `is_namedtuple` compares only unqualified type names when
checking the field names.  For an object whose type has the single direct
base `tuple`: if its `_fields` attribute is a tuple each of whose elements
has a runtime type merely named `"str"` — builtin or not — the predicate
returns `true`; and if `_fields` exists but is not a tuple (fails the
`isinstance` check, e.g. a list of names), it returns `false`. -/
theorem c10_namedtuple_name_only (env : Env) (x : PyObj) (names : List PyObj)
    (hb : env.bases x.ty = [tupleTypeId]) :
    (env.fieldsAttr x.ty = some (PyObj.seq tupleTypeId names) →
      names.all (fun n => env.name n.ty == "str") = true →
      is_namedtuple env x = true)
    ∧ (∀ f, env.fieldsAttr x.ty = some f →
        pyIsinstance env f tupleTypeId = false → is_namedtuple env x = false) := by
  constructor
  · intro hf hall
    unfold is_namedtuple
    rw [hb, hf]
    simp only [bne_self_eq_false, Bool.false_eq_true, if_false]
    have hinst : pyIsinstance env (PyObj.seq tupleTypeId names) tupleTypeId = true := by
      simp [pyIsinstance, PyObj.ty]
    rw [hinst]
    simpa [PyObj.elemsD] using hall
  · intro f hf hnotinst
    unfold is_namedtuple
    rw [hb, hf]
    simp [hnotinst]

/-- Witness for C10: the sample namedtuple class `tests.point.Point`, whose
single field name is an instance of the non-builtin type `exotic.text.str`,
is accepted. -/
theorem c10_witness :
    is_namedtuple sampleEnv (PyObj.atom 30) = true :=
  (c10_namedtuple_name_only sampleEnv (PyObj.atom 30) [PyObj.atom 31]
    (by decide)).1 rfl (by decide)
